import Mathlib

/-!
Verification of the decision core of the AI gateway (src/app.py): token
accounting, dual-tier cost estimation, PII scan/redact under a compliance
mode, threshold routing, and the session savings ledger. External
capabilities (the token encoding provider and the entity-recognition
engines) are modelled as parameters, since the repository consumes them
through library calls and does not implement them. Monetary amounts are
modelled as exact rationals.
-/

namespace AIGateway

/-- Compliance mode selected in the sidebar (src/app.py line 51): the radio
choice between the Strict redacting mode and the audit-only mode. -/
inductive ComplianceMode
  | Strict
  | AuditOnly
deriving DecidableEq, Repr

/-- The module-level configuration constants of src/app.py lines 10-13:
price per 1000 tokens for each tier, the routing token threshold, and the
warn-cost threshold. -/
structure Config where
  PRICE_GPT4 : ℚ
  PRICE_MINI : ℚ
  TOKEN_THRESHOLD : ℕ
  WARN_COST : ℚ
deriving DecidableEq, Repr

/-- The concrete values assigned in src/app.py lines 10-13. -/
def defaultConfig : Config :=
  ⟨3 / 100, 15 / 100000, 50, 2 / 10000⟩

/-- An external token encoding, as consumed by src/app.py: a function from
text to a sequence of token identifiers (only its length is used). -/
def Encoding : Type := String → List ℕ

/-- One PII detection result, as produced by the external analyzer engine
consumed in src/app.py line 31: entity category, character span into the
original text, and confidence score. -/
structure Finding where
  entityType : String
  startPos : ℕ
  endPos : ℕ
  score : ℚ
deriving DecidableEq, Repr

/-- Embedding of get_token_count (src/app.py lines 20-26). The external
registry tiktoken.encoding_for_model is modelled as a function returning
an Option: none models the KeyError that the except branch catches, in
which case the fixed generic encoding cl100k_base is used instead. The
result is the length of the encoded text. -/
def get_token_count (encoding_for_model : String → Option Encoding)
    (cl100k_base : Encoding) (text : String) (model : String) : ℕ :=
  let encoding :=
    match encoding_for_model model with
    | some e => e
    | none => cl100k_base
  (encoding text).length

/-- Embedding of scan_and_redact (src/app.py lines 28-38). The external
analyzer and anonymizer engines are parameters: analyze returns the list
of findings for the fixed entity set, anonymize substitutes markers for
the supplied findings. The function returns the anonymized text together
with the number of findings, exactly as the source does. -/
def scan_and_redact (analyze : String → List Finding)
    (anonymize : String → List Finding → String) (text : String) :
    String × ℕ :=
  let results := analyze text
  let anonymized_result := anonymize text results
  (anonymized_result, results.length)

/-- Cost formula shared by lines 71 and 79 of src/app.py:
tokens / 1000 * rate, over exact rationals. -/
def est_cost (tokens : ℕ) (rate : ℚ) : ℚ :=
  (tokens : ℚ) / 1000 * rate

/-- est_cost_high (src/app.py line 71): the high-tier (gpt-4o) cost,
computed unconditionally for every request. -/
def est_cost_high (cfg : Config) (tokens : ℕ) : ℚ :=
  est_cost tokens cfg.PRICE_GPT4

/-- est_cost_actual (src/app.py lines 77-84): the cost of the tier chosen
by routing. Below the threshold it is the mini-tier cost; at or above the
threshold the source assigns est_cost_high to it. -/
def est_cost_actual (cfg : Config) (tokens : ℕ) : ℚ :=
  if tokens < cfg.TOKEN_THRESHOLD then est_cost tokens cfg.PRICE_MINI
  else est_cost_high cfg tokens

/-- The cost values the request handler actually binds for one request:
est_cost_high at line 71 and est_cost_actual at line 79 or 83. No other
cost expression occurs in the source, so a tier cost is computed for a
request exactly when it occurs in this list. -/
def computedCosts (cfg : Config) (tokens : ℕ) : List ℚ :=
  [est_cost_high cfg tokens, est_cost_actual cfg tokens]

/-- model_used (src/app.py lines 77-82): the tier identifier chosen by
routing, as a function of the threshold and token count. -/
def model_used (threshold : ℕ) (tokens : ℕ) : String :=
  if tokens < threshold then "gpt-4o-mini" else "gpt-4o"

/-- route_reason (src/app.py lines 80 and 84): the literal reason strings
the source attaches to each routing branch. -/
def route_reason (threshold : ℕ) (tokens : ℕ) : String :=
  if tokens < threshold then "Low complexity (Token count < 50)"
  else "High complexity"

/-- savings (src/app.py line 86): est_cost_high - est_cost_actual. -/
def savings (cfg : Config) (tokens : ℕ) : ℚ :=
  est_cost_high cfg tokens - est_cost_actual cfg tokens

/-- The ledger update of src/app.py line 87: the running session total is
increased by the savings delta of the request. -/
def ledgerRecord (total : ℚ) (delta : ℚ) : ℚ :=
  total + delta

/-- Whether the Strict redaction branch ran (src/app.py lines 96-98): the
request is redacted exactly when PII was found and the mode is Strict. -/
def redactedFlag (mode : ComplianceMode) (pii_count : ℕ) : Bool :=
  mode = ComplianceMode.Strict ∧ pii_count > 0

/-- Whether the audit-exception branch ran (src/app.py lines 100-101): the
request is audit-flagged exactly when PII was found and the mode is the
audit-only mode. -/
def auditFlag (mode : ComplianceMode) (pii_count : ℕ) : Bool :=
  mode = ComplianceMode.AuditOnly ∧ pii_count > 0

/-- The decision data one request produces (src/app.py lines 68-104): the
analysis values, the routing choice, the text forwarded downstream, and
the updated session savings total. -/
structure DecisionRecord where
  tokens : ℕ
  est_cost_high : ℚ
  est_cost_actual : ℚ
  pii_count : ℕ
  model_used : String
  route_reason : String
  savings : ℚ
  final_prompt : String
  total_savings : ℚ
deriving DecidableEq, Repr

/-- Embedding of the per-request pipeline of src/app.py lines 68-104:
token count, unconditional high-tier cost, scan and redact, threshold
routing, savings accumulation into the session total, and selection of
final_prompt from the compliance mode. The WARN_COST field of the
configuration is never read, mirroring the source, where WARN_COST is
assigned on line 13 and referenced nowhere else. -/
def pipeline (cfg : Config) (encoding_for_model : String → Option Encoding)
    (cl100k_base : Encoding) (analyze : String → List Finding)
    (anonymize : String → List Finding → String)
    (compliance_mode : ComplianceMode) (prompt : String)
    (total_savings : ℚ) : DecisionRecord :=
  let tokens := get_token_count encoding_for_model cl100k_base prompt "gpt-4o"
  let costHigh := est_cost_high cfg tokens
  let scanned := scan_and_redact analyze anonymize prompt
  let clean_prompt := scanned.1
  let pii_count := scanned.2
  let costActual := est_cost_actual cfg tokens
  let s := costHigh - costActual
  let final_prompt :=
    if pii_count > 0 then
      match compliance_mode with
      | ComplianceMode.Strict => clean_prompt
      | ComplianceMode.AuditOnly => prompt
    else prompt
  ⟨tokens, costHigh, costActual, pii_count,
    model_used cfg.TOKEN_THRESHOLD tokens,
    route_reason cfg.TOKEN_THRESHOLD tokens,
    s, final_prompt, ledgerRecord total_savings s⟩

/-! Concrete instruments used by the witness theorems: a character-level
encoding, an empty encoding registry, and simple analyzer and anonymizer
stand-ins for the external engines. -/

/-- A concrete token encoding for witnesses: one token per character. -/
def charEncoding : Encoding := fun s => s.data.map Char.toNat

/-- A registry with no encoding registered for any model. -/
def noRegistry : String → Option Encoding := fun _ => none

/-- A concrete phone-number finding for witnesses. -/
def phoneFinding : Finding := ⟨"PHONE_NUMBER", 11, 19, 7 / 10⟩

/-- An analyzer stand-in reporting one phone-number finding on any text. -/
def onePhone : String → List Finding := fun _ => [phoneFinding]

/-- An analyzer stand-in reporting no findings on any text. -/
def noFindings : String → List Finding := fun _ => []

/-- An anonymizer stand-in: returns the text unchanged when there are no
findings and a fixed marker otherwise. -/
def testAnonymize : String → List Finding → String :=
  fun t rs => if rs.isEmpty then t else "REDACTED"

end AIGateway

namespace AIGateway

/-- Helper: the savings delta is non-negative whenever the mini rate is at
most the gpt-4o rate. -/
theorem savings_nonneg (cfg : Config) (t : ℕ)
    (hrate : cfg.PRICE_MINI ≤ cfg.PRICE_GPT4) : 0 ≤ savings cfg t := by
  unfold savings est_cost_actual
  split
  · rw [sub_nonneg]
    unfold est_cost_high est_cost
    apply mul_le_mul_of_nonneg_left hrate
    positivity
  · simp

/-- Helper: the session total after a pipeline run is the incoming total
plus the request's savings delta, and the delta does not depend on the
incoming total. -/
theorem pipeline_total_step (cfg : Config) (enc : String → Option Encoding)
    (fb : Encoding) (analyze : String → List Finding)
    (anonymize : String → List Finding → String) (mode : ComplianceMode)
    (p : String) (tot : ℚ) :
    (pipeline cfg enc fb analyze anonymize mode p tot).total_savings =
      tot + (pipeline cfg enc fb analyze anonymize mode p 0).savings := by
  rfl

/-- Helper: a pipeline run's savings delta is the savings function at the
request's token count. -/
theorem pipeline_savings_eq (cfg : Config) (enc : String → Option Encoding)
    (fb : Encoding) (analyze : String → List Finding)
    (anonymize : String → List Finding → String) (mode : ComplianceMode)
    (p : String) (tot : ℚ) :
    (pipeline cfg enc fb analyze anonymize mode p tot).savings =
      savings cfg (get_token_count enc fb p "gpt-4o") := by
  rfl

/-- Claim C7 (confirmed): cost monotonicity. For every token count and every pair of rates
with the low rate at most the high rate, the low-tier estimate is at most
the high-tier estimate, and the inequality is strict once the token count
is positive and the rates differ strictly. -/
theorem cost_monotone (cfg : Config) (t : ℕ)
    (hle : cfg.PRICE_MINI ≤ cfg.PRICE_GPT4) :
    est_cost t cfg.PRICE_MINI ≤ est_cost_high cfg t ∧
      (0 < t → cfg.PRICE_MINI < cfg.PRICE_GPT4 →
        est_cost t cfg.PRICE_MINI < est_cost_high cfg t) := by
  unfold est_cost_high est_cost
  constructor
  · apply mul_le_mul_of_nonneg_left hle
    positivity
  · intro ht hlt
    have hpos : (0 : ℚ) < (t : ℚ) / 1000 := by
      apply div_pos
      · exact_mod_cast ht
      · norm_num
    exact mul_lt_mul_of_pos_left hlt hpos

/-- Witness for C7 at token count 1 with the configured rates. -/
theorem cost_monotone_witness :
    defaultConfig.PRICE_MINI ≤ defaultConfig.PRICE_GPT4 ∧ 0 < 1 ∧
      defaultConfig.PRICE_MINI < defaultConfig.PRICE_GPT4 ∧
      est_cost 1 defaultConfig.PRICE_MINI < est_cost_high defaultConfig 1 :=
  ⟨by norm_num [defaultConfig], by norm_num, by norm_num [defaultConfig],
    (cost_monotone defaultConfig 1 (by norm_num [defaultConfig])).2
      (by norm_num) (by norm_num [defaultConfig])⟩

/-- Counterexample to claim C2 as stated: at token count 49 the routing
policy does choose the low tier, but the reason string the source returns
is the literal of line 80, not the phrase named in the claim. -/
theorem routing_reason_counterexample :
    model_used 50 49 = "gpt-4o-mini" ∧
      route_reason 50 49 ≠ "below complexity threshold" := by
  constructor
  · rfl
  · decide

/-- Claim C2 (amended): with the threshold 50, every token count below 50
routes to the low tier with reason "Low complexity (Token count < 50)" and
every token count of at least 50 routes to the high tier with reason
"High complexity"; in particular 49 routes low and 50 routes high. -/
theorem routing_threshold (t : ℕ) :
    (t < 50 → model_used 50 t = "gpt-4o-mini" ∧
      route_reason 50 t = "Low complexity (Token count < 50)") ∧
    (50 ≤ t → model_used 50 t = "gpt-4o" ∧
      route_reason 50 t = "High complexity") := by
  constructor
  · intro h
    constructor <;> simp [model_used, route_reason, h]
  · intro h
    constructor <;> simp [model_used, route_reason, Nat.not_lt.mpr h]

/-- Witness for C2 at the boundary token counts 49 and 50. -/
theorem routing_threshold_witness :
    (model_used 50 49 = "gpt-4o-mini" ∧
      route_reason 50 49 = "Low complexity (Token count < 50)") ∧
    (model_used 50 50 = "gpt-4o" ∧ route_reason 50 50 = "High complexity") :=
  ⟨(routing_threshold 49).1 (by decide), (routing_threshold 50).2 (by decide)⟩

/-- Counterexample to claim C1 as stated: at token count 50 the request
handler computes no cost value equal to the low-tier cost; the only cost
values bound are est_cost_high and est_cost_actual, and at 50 tokens both
equal the high-tier cost. -/
theorem low_cost_not_computed :
    est_cost 50 defaultConfig.PRICE_MINI ∉ computedCosts defaultConfig 50 := by
  norm_num [computedCosts, est_cost, est_cost_high, est_cost_actual,
    defaultConfig]

/-- Claim C1 (amended): the high-tier cost is computed unconditionally for
every token count, but the low-tier cost is computed only when routing
chooses the low tier (token count below the threshold); once the high tier
is chosen, no computed cost equals the low-tier cost. -/
theorem computed_costs (t : ℕ) :
    est_cost_high defaultConfig t ∈ computedCosts defaultConfig t ∧
      (50 ≤ t →
        est_cost t defaultConfig.PRICE_MINI ∉ computedCosts defaultConfig t) ∧
      (t < 50 →
        est_cost t defaultConfig.PRICE_MINI ∈ computedCosts defaultConfig t) := by
  refine ⟨List.mem_cons_self _ _, ?_, ?_⟩
  · intro h50
    have htpos : (0 : ℚ) < (t : ℚ) / 1000 := by
      have h0 : 0 < t := by omega
      apply div_pos
      · exact_mod_cast h0
      · norm_num
    have hne : est_cost t defaultConfig.PRICE_MINI ≠
        est_cost_high defaultConfig t := by
      unfold est_cost_high est_cost
      intro heq
      have hc := mul_left_cancel₀ (ne_of_gt htpos) heq
      norm_num [defaultConfig] at hc
    have hact : est_cost_actual defaultConfig t = est_cost_high defaultConfig t := by
      unfold est_cost_actual
      rw [if_neg]
      show ¬ t < 50
      omega
    simp [computedCosts, hact, hne]
  · intro h
    have hact : est_cost_actual defaultConfig t =
        est_cost t defaultConfig.PRICE_MINI := by
      unfold est_cost_actual
      rw [if_pos]
      show t < 50
      omega
    simp [computedCosts, hact]

/-- Witness for C1 at token count 50: the high-tier cost is among the
computed costs while the low-tier cost is not. -/
theorem computed_costs_witness :
    est_cost_high defaultConfig 50 ∈ computedCosts defaultConfig 50 ∧
      est_cost 50 defaultConfig.PRICE_MINI ∉ computedCosts defaultConfig 50 :=
  ⟨(computed_costs 50).1, (computed_costs 50).2.1 (by norm_num)⟩

/-- Claim C8 (confirmed): token counting never fails. When no encoding is
registered for the model identifier (the KeyError case), the count is
taken with the fixed fallback encoding rather than surfacing an error, and
when the text is empty and the fallback encodes the empty string to the
empty token list, the count is zero. -/
theorem token_count_fallback (encoding_for_model : String → Option Encoding)
    (cl100k_base : Encoding) (text model : String)
    (h : encoding_for_model model = none) :
    get_token_count encoding_for_model cl100k_base text model =
        (cl100k_base text).length ∧
      (cl100k_base "" = [] →
        get_token_count encoding_for_model cl100k_base "" model = 0) := by
  constructor
  · simp [get_token_count, h]
  · intro he
    simp [get_token_count, h, he]

/-- Witness for C8 with an empty registry and a character-level fallback
encoding, at the empty text. -/
theorem token_count_fallback_witness :
    noRegistry "unknown-model" = none ∧ charEncoding "" = [] ∧
      get_token_count noRegistry charEncoding "" "unknown-model" = 0 :=
  ⟨rfl, rfl,
    (token_count_fallback noRegistry charEncoding "" "unknown-model" rfl).2 rfl⟩

/-- Claim C9 (confirmed): the warn-cost threshold never affects the
decision record. Two runs of the pipeline whose configurations differ only
in the WARN_COST field produce identical decision records, for every
input; the source assigns WARN_COST on line 13 and never reads it. -/
theorem warn_cost_no_effect (p m : ℚ) (th : ℕ) (w1 w2 : ℚ)
    (enc : String → Option Encoding) (fb : Encoding)
    (analyze : String → List Finding)
    (anonymize : String → List Finding → String) (mode : ComplianceMode)
    (prompt : String) (total : ℚ) :
    pipeline ⟨p, m, th, w1⟩ enc fb analyze anonymize mode prompt total =
      pipeline ⟨p, m, th, w2⟩ enc fb analyze anonymize mode prompt total :=
  rfl

/-- Claim C4 (confirmed): in the audit-only mode, for every text on which
the analyzer reports a non-empty findings list, the text forwarded
downstream is the original text unchanged, the audit flag is true, and the
redacted flag is false. -/
theorem audit_only_preserves (cfg : Config) (enc : String → Option Encoding)
    (fb : Encoding) (analyze : String → List Finding)
    (anonymize : String → List Finding → String) (prompt : String)
    (total : ℚ) (h : 0 < (analyze prompt).length) :
    (pipeline cfg enc fb analyze anonymize ComplianceMode.AuditOnly prompt
        total).final_prompt = prompt ∧
      auditFlag ComplianceMode.AuditOnly
        (pipeline cfg enc fb analyze anonymize ComplianceMode.AuditOnly
          prompt total).pii_count = true ∧
      redactedFlag ComplianceMode.AuditOnly
        (pipeline cfg enc fb analyze anonymize ComplianceMode.AuditOnly
          prompt total).pii_count = false := by
  refine ⟨?_, ?_, ?_⟩ <;>
    simp [pipeline, scan_and_redact, auditFlag, redactedFlag, h]

/-- Witness for C4 on the demo prompt with an analyzer reporting one
phone-number finding. -/
theorem audit_only_preserves_witness :
    0 < (onePhone "Call me at 555-0199").length ∧
      (pipeline defaultConfig noRegistry charEncoding onePhone testAnonymize
          ComplianceMode.AuditOnly "Call me at 555-0199" 0).final_prompt
        = "Call me at 555-0199" ∧
      auditFlag ComplianceMode.AuditOnly
        (pipeline defaultConfig noRegistry charEncoding onePhone testAnonymize
          ComplianceMode.AuditOnly "Call me at 555-0199" 0).pii_count = true ∧
      redactedFlag ComplianceMode.AuditOnly
        (pipeline defaultConfig noRegistry charEncoding onePhone testAnonymize
          ComplianceMode.AuditOnly "Call me at 555-0199" 0).pii_count = false :=
  ⟨by decide,
    audit_only_preserves defaultConfig noRegistry charEncoding onePhone
      testAnonymize "Call me at 555-0199" 0 (by decide)⟩

/-- Claim C6 (confirmed): no-PII invariant. For every text on which the
analyzer reports no findings, the reported finding count is 0 and the
forwarded text equals the original text, under every compliance mode. -/
theorem no_pii_invariant (cfg : Config) (enc : String → Option Encoding)
    (fb : Encoding) (analyze : String → List Finding)
    (anonymize : String → List Finding → String) (mode : ComplianceMode)
    (prompt : String) (total : ℚ) (h : analyze prompt = []) :
    (pipeline cfg enc fb analyze anonymize mode prompt total).pii_count = 0 ∧
      (pipeline cfg enc fb analyze anonymize mode prompt
        total).final_prompt = prompt := by
  constructor <;> simp [pipeline, scan_and_redact, h]

/-- Witness for C6 with an analyzer reporting no findings, in Strict
mode. -/
theorem no_pii_invariant_witness :
    noFindings "hello" = [] ∧
      (pipeline defaultConfig noRegistry charEncoding noFindings testAnonymize
          ComplianceMode.Strict "hello" 0).pii_count = 0 ∧
      (pipeline defaultConfig noRegistry charEncoding noFindings testAnonymize
          ComplianceMode.Strict "hello" 0).final_prompt = "hello" :=
  ⟨rfl,
    no_pii_invariant defaultConfig noRegistry charEncoding noFindings
      testAnonymize ComplianceMode.Strict "hello" 0 rfl⟩

/-- Claim C5 (confirmed): savings accumulation. Each request's savings
delta is est_cost_high minus est_cost_actual and is non-negative when the
mini rate is at most the gpt-4o rate; running the pipeline on two requests
in sequence from a zero ledger yields the sum of their two deltas,
independent of processing order, and the running total never decreases. -/
theorem savings_accumulation (cfg : Config) (t : ℕ)
    (enc : String → Option Encoding) (fb : Encoding)
    (analyze : String → List Finding)
    (anonymize : String → List Finding → String) (mode : ComplianceMode)
    (p1 p2 : String) (hrate : cfg.PRICE_MINI ≤ cfg.PRICE_GPT4) :
    savings cfg t = est_cost_high cfg t - est_cost_actual cfg t ∧
      0 ≤ savings cfg t ∧
      (pipeline cfg enc fb analyze anonymize mode p2
          ((pipeline cfg enc fb analyze anonymize mode p1
            0).total_savings)).total_savings
        = (pipeline cfg enc fb analyze anonymize mode p1 0).savings
            + (pipeline cfg enc fb analyze anonymize mode p2 0).savings ∧
      (pipeline cfg enc fb analyze anonymize mode p2
          ((pipeline cfg enc fb analyze anonymize mode p1
            0).total_savings)).total_savings
        = (pipeline cfg enc fb analyze anonymize mode p1
            ((pipeline cfg enc fb analyze anonymize mode p2
              0).total_savings)).total_savings ∧
      (pipeline cfg enc fb analyze anonymize mode p1 0).total_savings
        ≤ (pipeline cfg enc fb analyze anonymize mode p2
            ((pipeline cfg enc fb analyze anonymize mode p1
              0).total_savings)).total_savings := by
  refine ⟨rfl, savings_nonneg cfg t hrate, ?_, ?_, ?_⟩
  · rw [pipeline_total_step, pipeline_total_step]
    ring
  · rw [pipeline_total_step, pipeline_total_step, pipeline_total_step,
      pipeline_total_step]
    ring
  · rw [pipeline_total_step cfg enc fb analyze anonymize mode p2]
    apply le_add_of_nonneg_right
    rw [pipeline_savings_eq]
    exact savings_nonneg cfg _ hrate

/-- Witness for C5 with the configured rates, two concrete prompts and a
character-level fallback encoding. -/
theorem savings_accumulation_witness :
    defaultConfig.PRICE_MINI ≤ defaultConfig.PRICE_GPT4 ∧
      (savings defaultConfig 10
          = est_cost_high defaultConfig 10 - est_cost_actual defaultConfig 10 ∧
        0 ≤ savings defaultConfig 10 ∧
        (pipeline defaultConfig noRegistry charEncoding noFindings
            testAnonymize ComplianceMode.Strict "bb"
            ((pipeline defaultConfig noRegistry charEncoding noFindings
              testAnonymize ComplianceMode.Strict "a"
              0).total_savings)).total_savings
          = (pipeline defaultConfig noRegistry charEncoding noFindings
              testAnonymize ComplianceMode.Strict "a" 0).savings
              + (pipeline defaultConfig noRegistry charEncoding noFindings
                testAnonymize ComplianceMode.Strict "bb" 0).savings ∧
        (pipeline defaultConfig noRegistry charEncoding noFindings
            testAnonymize ComplianceMode.Strict "bb"
            ((pipeline defaultConfig noRegistry charEncoding noFindings
              testAnonymize ComplianceMode.Strict "a"
              0).total_savings)).total_savings
          = (pipeline defaultConfig noRegistry charEncoding noFindings
              testAnonymize ComplianceMode.Strict "a"
              ((pipeline defaultConfig noRegistry charEncoding noFindings
                testAnonymize ComplianceMode.Strict "bb"
                0).total_savings)).total_savings ∧
        (pipeline defaultConfig noRegistry charEncoding noFindings
            testAnonymize ComplianceMode.Strict "a" 0).total_savings
          ≤ (pipeline defaultConfig noRegistry charEncoding noFindings
              testAnonymize ComplianceMode.Strict "bb"
              ((pipeline defaultConfig noRegistry charEncoding noFindings
                testAnonymize ComplianceMode.Strict "a"
                0).total_savings)).total_savings) :=
  ⟨by norm_num [defaultConfig],
    savings_accumulation defaultConfig 10 noRegistry charEncoding noFindings
      testAnonymize ComplianceMode.Strict "a" "bb"
      (by norm_num [defaultConfig])⟩

/-- Claim C10 (confirmed): compliance-mode noninterference over the
analysis stage. For every prompt, the Strict run and the audit-only run
agree on token count, both cost estimates, finding count, routing choice
and reason, savings delta and updated ledger total; the audit-only run
forwards the raw prompt, and the Strict run forwards either the redacted
text or, when nothing was found, the raw prompt. -/
theorem mode_noninterference (cfg : Config) (enc : String → Option Encoding)
    (fb : Encoding) (analyze : String → List Finding)
    (anonymize : String → List Finding → String) (prompt : String)
    (total : ℚ) :
    let r1 := pipeline cfg enc fb analyze anonymize ComplianceMode.Strict
      prompt total
    let r2 := pipeline cfg enc fb analyze anonymize ComplianceMode.AuditOnly
      prompt total
    r1.tokens = r2.tokens ∧ r1.est_cost_high = r2.est_cost_high ∧
      r1.est_cost_actual = r2.est_cost_actual ∧
      r1.pii_count = r2.pii_count ∧ r1.model_used = r2.model_used ∧
      r1.route_reason = r2.route_reason ∧ r1.savings = r2.savings ∧
      r1.total_savings = r2.total_savings ∧ r2.final_prompt = prompt ∧
      (r1.final_prompt = (scan_and_redact analyze anonymize prompt).1 ∨
        r1.final_prompt = prompt) := by
  intro r1 r2
  by_cases h : 0 < (analyze prompt).length
  · refine ⟨rfl, rfl, rfl, rfl, rfl, rfl, rfl, rfl, ?_, Or.inl ?_⟩ <;>
      simp [r1, r2, pipeline, scan_and_redact, h]
  · refine ⟨rfl, rfl, rfl, rfl, rfl, rfl, rfl, rfl, ?_, Or.inr ?_⟩ <;>
      simp [r1, r2, pipeline, scan_and_redact, h]

end AIGateway
